import Mathlib

/-!
Verification of the Simple Chat Protocol (SCP v1.0) implementation: a shallow
embedding of `src/pdu.py`, `src/scp_constants.py` and `src/server.py`.

Modelling conventions:
* Python `bytes` values are `List Nat` (each entry below 256 where the code
  guarantees it); Python `str` values are represented by their UTF-8 byte
  encodings, which is a bijection between strings and valid UTF-8 byte lists
  (`str.encode` / `bytes.decode` are the two directions).
* Python dicts are association lists with dict-style update semantics.
* Each server-side protocol object (`SCPServerProtocol`) is a `Session`
  record, keyed by a numeric connection id; the module-level dicts
  `connected_clients`, `active_users` and `chat_sessions` form `ServerSt`.
* Exceptions in the decode path are an explicit `Except PyExc`; the server
  distinguishes `ValueError` (caught as a malformed message) from every
  other exception (caught by the blanket handler as an internal error).
* QUIC stream acquisition for a *peer* connection
  (`get_next_available_stream_id` / `create_stream`) is abstracted by an
  oracle `env : Nat → Bool` saying whether a usable stream to that peer is
  obtained; sends on the event's own stream always succeed, as in the code.
-/

namespace SCP

/-- UTF-8 bytes of an ASCII string literal (every literal emitted by the
programs is ASCII, where the UTF-8 encoding coincides with the code points). -/
def asciiBytes (s : String) : List Nat := s.data.map (fun c => c.toNat)

/-- Decimal-digit rendering of a natural number as ASCII bytes, fuel-driven
so that it reduces in the kernel; mirrors CPython `str(int)` as used by
f-strings in error messages. -/
def natDigitsAux : Nat → Nat → List Nat
  | 0, _ => []
  | fuel + 1, n => if n < 10 then [48 + n] else natDigitsAux fuel (n / 10) ++ [48 + n % 10]

/-- Decimal ASCII rendering of `n` (CPython `str(n)`). -/
def natDigits (n : Nat) : List Nat := natDigitsAux (n + 1) n

/-- Python dict lookup, `d.get(k)`. -/
def alookup {α β : Type} [DecidableEq α] : List (α × β) → α → Option β
  | [], _ => none
  | (k, v) :: t, k1 => if k1 = k then some v else alookup t k1

/-- Python dict assignment, `d[k] = v`: replaces the binding if present,
otherwise appends (insertion order, as CPython dicts). -/
def aset {α β : Type} [DecidableEq α] : List (α × β) → α → β → List (α × β)
  | [], k, v => [(k, v)]
  | (k1, v1) :: t, k, v => if k = k1 then (k, v) :: t else (k1, v1) :: aset t k v

/-- Python guarded dict deletion, `if k in d: del d[k]`. -/
def aerase {α β : Type} [DecidableEq α] : List (α × β) → α → List (α × β)
  | [], _ => []
  | (k1, v1) :: t, k => if k = k1 then t else (k1, v1) :: aerase t k

/-! Constants from `src/scp_constants.py`. -/

def SCP_VERSION_1_0 : Nat := 1
def SCP_CONNECT_SUCCESS : Nat := 0
def SCP_CONNECT_ERR_USER_EXISTS : Nat := 1
def SCP_CONNECT_ERR_SERVER_FULL : Nat := 3
def SCP_CHAT_INIT_FORWARDED : Nat := 0
def SCP_CHAT_INIT_ERR_PEER_NF : Nat := 1
def SCP_CHAT_INIT_ERR_PEER_BUSY : Nat := 2
def SCP_CHAT_INIT_ERR_SELF_CHAT : Nat := 3
def SCP_CHAT_INIT_ERR_PEER_REJECTED : Nat := 4
def SCP_CHAT_FWD_ACCEPTED : Nat := 0
def SCP_CHAT_FWD_REJECTED : Nat := 1
def SCP_ERR_MALFORMED_MSG : Nat := 1
def SCP_ERR_UNEXPECTED_MSG_TYPE : Nat := 2
def SCP_ERR_INVALID_PAYLOAD_LEN : Nat := 3
def SCP_ERR_INTERNAL_SERVER_ERR : Nat := 4
def SCP_ERR_UNSUPPORTED_VERSION : Nat := 5

/-- `MAX_CLIENTS = 10` in `src/server.py`. -/
def MAX_CLIENTS : Nat := 10

/-- `SCPMessageType` enum (`src/scp_constants.py`). -/
inductive SCPMessageType
  | connectReq | connectResp | chatInitReq | chatInitResp
  | chatFwdReq | chatFwdResp | text | disconnectReq | disconnectNotif
  | ack | error
deriving DecidableEq

/-- Numeric code of each message type. -/
def SCPMessageType.val : SCPMessageType → Nat
  | .connectReq => 1
  | .connectResp => 2
  | .chatInitReq => 3
  | .chatInitResp => 4
  | .chatFwdReq => 5
  | .chatFwdResp => 6
  | .text => 7
  | .disconnectReq => 8
  | .disconnectNotif => 9
  | .ack => 10
  | .error => 11

/-- `SCPMessageType(n)`: `none` models the `ValueError` raised by the enum
constructor on an unknown code. -/
def msgTypeOfVal (n : Nat) : Option SCPMessageType :=
  if n = 1 then some .connectReq
  else if n = 2 then some .connectResp
  else if n = 3 then some .chatInitReq
  else if n = 4 then some .chatInitResp
  else if n = 5 then some .chatFwdReq
  else if n = 6 then some .chatFwdResp
  else if n = 7 then some .text
  else if n = 8 then some .disconnectReq
  else if n = 9 then some .disconnectNotif
  else if n = 10 then some .ack
  else if n = 11 then some .error
  else none

/-- `SCPServerState` enum (`src/scp_constants.py`). -/
inductive SCPServerState
  | authenticating | idle | awaitingPeerForInit | awaitingChatResponse
  | inChat | relayingDisconnect
deriving DecidableEq

/-- Python enum `.name`, as used in server error-message f-strings. -/
def stateName : SCPServerState → List Nat
  | .authenticating => asciiBytes "AUTHENTICATING"
  | .idle => asciiBytes "IDLE"
  | .awaitingPeerForInit => asciiBytes "AWAITING_PEER_FOR_INIT"
  | .awaitingChatResponse => asciiBytes "AWAITING_CHAT_RESPONSE"
  | .inChat => asciiBytes "IN_CHAT"
  | .relayingDisconnect => asciiBytes "RELAYING_DISCONNECT"

/-- A continuation byte `0x80..0xBF`. -/
def isCont (b : Nat) : Bool := 128 ≤ b && b < 192

/-- RFC 3629 UTF-8 validity (what CPython `bytes.decode` accepts: no
overlong forms, no surrogates, at most U+10FFFF). -/
def utf8Valid : List Nat → Bool
  | [] => true
  | b :: rest =>
    if b < 128 then utf8Valid rest
    else if b < 194 then false
    else if b < 224 then
      match rest with
      | c1 :: r => isCont c1 && utf8Valid r
      | _ => false
    else if b = 224 then
      match rest with
      | c1 :: c2 :: r => (160 ≤ c1 && c1 < 192) && isCont c2 && utf8Valid r
      | _ => false
    else if b = 237 then
      match rest with
      | c1 :: c2 :: r => (128 ≤ c1 && c1 < 160) && isCont c2 && utf8Valid r
      | _ => false
    else if b < 240 then
      match rest with
      | c1 :: c2 :: r => isCont c1 && isCont c2 && utf8Valid r
      | _ => false
    else if b = 240 then
      match rest with
      | c1 :: c2 :: c3 :: r => (144 ≤ c1 && c1 < 192) && isCont c2 && isCont c3 && utf8Valid r
      | _ => false
    else if b < 244 then
      match rest with
      | c1 :: c2 :: c3 :: r => isCont c1 && isCont c2 && isCont c3 && utf8Valid r
      | _ => false
    else if b = 244 then
      match rest with
      | c1 :: c2 :: c3 :: r => (128 ≤ c1 && c1 < 144) && isCont c2 && isCont c3 && utf8Valid r
      | _ => false
    else false

/-- Python exceptions that can escape the decode path.  The server only
distinguishes `ValueError` (which includes `UnicodeDecodeError`) from the
rest. -/
inductive PyExc
  | valueError (msg : List Nat)
  | structError
  | indexError
deriving DecidableEq

/-- `bytes.decode("utf-8")` on the byte-list model of strings: the identity
on valid UTF-8, `UnicodeDecodeError` (a `ValueError`; its CPython message
text is abstracted) otherwise. -/
def pyDecodeUtf8 (b : List Nat) : Except PyExc (List Nat) :=
  if utf8Valid b then .ok b else .error (.valueError (asciiBytes "invalid utf-8"))

/-- The PDU values of `src/pdu.py` (one constructor per PDU class; the ACK
type code has no PDU class). String-typed fields carry UTF-8 bytes. -/
inductive PDU
  | connectReq (username : List Nat)
  | connectResp (statusCode : Nat)
  | chatInitReq (peerUsername : List Nat)
  | chatInitResp (statusCode : Nat)
  | chatFwdReq (originatorUsername : List Nat)
  | chatFwdResp (statusCode : Nat) (originatorUsername : List Nat)
  | text (textMessage : List Nat)
  | disconnectReq
  | disconnectNotif (peerUsername : List Nat)
  | error (errorCode : Nat) (errorMessage : List Nat)
deriving DecidableEq

/-- The `MESSAGE_TYPE` of each PDU class. -/
def PDU.msgType : PDU → SCPMessageType
  | .connectReq _ => .connectReq
  | .connectResp _ => .connectResp
  | .chatInitReq _ => .chatInitReq
  | .chatInitResp _ => .chatInitResp
  | .chatFwdReq _ => .chatFwdReq
  | .chatFwdResp _ _ => .chatFwdResp
  | .text _ => .text
  | .disconnectReq => .disconnectReq
  | .disconnectNotif _ => .disconnectNotif
  | .error _ _ => .error

/-- `SCPHeader.pack()` prepended to a payload: `struct.pack` of
`!BBH` (version, type, payload length) followed by the payload bytes.
`none` models the `struct.error` raised when the payload length does not
fit the `u16` field. -/
def packWithHeader (t : SCPMessageType) (payload : List Nat) : Option (List Nat) :=
  if payload.length < 65536 then
    some (SCP_VERSION_1_0 :: t.val :: payload.length / 256 :: payload.length % 256 :: payload)
  else none

/-- `pack()` of each PDU class.  `none` models a `struct.error`: a name
length not fitting `!B`, a status or error code out of range, a text length
not fitting `!H`, or a payload length not fitting the header's `!H`. -/
def PDU.pack : PDU → Option (List Nat)
  | .connectReq u =>
    if u.length < 256 then packWithHeader .connectReq (u.length :: u) else none
  | .connectResp c =>
    if c < 256 then packWithHeader .connectResp [c] else none
  | .chatInitReq u =>
    if u.length < 256 then packWithHeader .chatInitReq (u.length :: u) else none
  | .chatInitResp c =>
    if c < 256 then packWithHeader .chatInitResp [c] else none
  | .chatFwdReq u =>
    if u.length < 256 then packWithHeader .chatFwdReq (u.length :: u) else none
  | .chatFwdResp c u =>
    if c < 256 then
      if u.length < 256 then packWithHeader .chatFwdResp (c :: u.length :: u) else none
    else none
  | .text m =>
    if m.length < 65536 then
      packWithHeader .text (m.length / 256 :: m.length % 256 :: m)
    else none
  | .disconnectReq => packWithHeader .disconnectReq []
  | .disconnectNotif u =>
    if u.length < 256 then packWithHeader .disconnectNotif (u.length :: u) else none
  | .error c m =>
    if c < 65536 then
      if m.length < 256 then
        packWithHeader .error (c / 256 :: c % 256 :: m.length :: m)
      else none
    else none

/-- `ConnectReqPDU.unpack`: `payload[0]` (IndexError on empty payload),
then the clamping slice `payload[1:1+n]`, then UTF-8 decode. -/
def ConnectReqPDU.unpack (payload : List Nat) : Except PyExc PDU :=
  match payload with
  | [] => .error .indexError
  | n :: rest =>
    match pyDecodeUtf8 (rest.take n) with
    | .ok u => .ok (.connectReq u)
    | .error e => .error e

/-- `ConnectRespPDU.unpack`: `struct.unpack` of `!B` requires exactly one
byte (struct.error otherwise). -/
def ConnectRespPDU.unpack (payload : List Nat) : Except PyExc PDU :=
  match payload with
  | [b] => .ok (.connectResp b)
  | _ => .error .structError

/-- `ChatInitReqPDU.unpack` (same shape as `ConnectReqPDU.unpack`). -/
def ChatInitReqPDU.unpack (payload : List Nat) : Except PyExc PDU :=
  match payload with
  | [] => .error .indexError
  | n :: rest =>
    match pyDecodeUtf8 (rest.take n) with
    | .ok u => .ok (.chatInitReq u)
    | .error e => .error e

/-- `ChatInitRespPDU.unpack`. -/
def ChatInitRespPDU.unpack (payload : List Nat) : Except PyExc PDU :=
  match payload with
  | [b] => .ok (.chatInitResp b)
  | _ => .error .structError

/-- `ChatFwdReqPDU.unpack`. -/
def ChatFwdReqPDU.unpack (payload : List Nat) : Except PyExc PDU :=
  match payload with
  | [] => .error .indexError
  | n :: rest =>
    match pyDecodeUtf8 (rest.take n) with
    | .ok u => .ok (.chatFwdReq u)
    | .error e => .error e

/-- `ChatFwdRespPDU.unpack`: `payload[0]`, `payload[1]` (IndexError when
missing), then the clamping slice `payload[2:2+n]` and UTF-8 decode. -/
def ChatFwdRespPDU.unpack (payload : List Nat) : Except PyExc PDU :=
  match payload with
  | c :: n :: rest =>
    match pyDecodeUtf8 (rest.take n) with
    | .ok u => .ok (.chatFwdResp c u)
    | .error e => .error e
  | _ => .error .indexError

/-- `TextPDU.unpack`: `struct.unpack` of `!H` on `payload[:2]` (struct.error
when fewer than two bytes arrive), then the clamping slice and UTF-8
decode. -/
def TextPDU.unpack (payload : List Nat) : Except PyExc PDU :=
  match payload with
  | h :: l :: rest =>
    match pyDecodeUtf8 (rest.take (h * 256 + l)) with
    | .ok m => .ok (.text m)
    | .error e => .error e
  | _ => .error .structError

/-- `DisconnectReqPDU.unpack`: no payload to unpack. -/
def DisconnectReqPDU.unpack (_payload : List Nat) : Except PyExc PDU :=
  .ok .disconnectReq

/-- `DisconnectNotifPDU.unpack`. -/
def DisconnectNotifPDU.unpack (payload : List Nat) : Except PyExc PDU :=
  match payload with
  | [] => .error .indexError
  | n :: rest =>
    match pyDecodeUtf8 (rest.take n) with
    | .ok u => .ok (.disconnectNotif u)
    | .error e => .error e

/-- `ErrorPDU.unpack`: `!H` on `payload[:2]` (struct.error when short),
`payload[2]` (IndexError when absent), slice and UTF-8 decode. -/
def ErrorPDU.unpack (payload : List Nat) : Except PyExc PDU :=
  match payload with
  | _ :: _ :: [] => .error .indexError
  | h :: l :: n :: rest =>
    match pyDecodeUtf8 (rest.take n) with
    | .ok m => .ok (.error (h * 256 + l) m)
    | .error e => .error e
  | _ => .error .structError

/-- `PDU_UNPACKERS`: the dispatch dict; ACK has no entry. -/
def unpackerFor : SCPMessageType → Option (List Nat → Except PyExc PDU)
  | .connectReq => some ConnectReqPDU.unpack
  | .connectResp => some ConnectRespPDU.unpack
  | .chatInitReq => some ChatInitReqPDU.unpack
  | .chatInitResp => some ChatInitRespPDU.unpack
  | .chatFwdReq => some ChatFwdReqPDU.unpack
  | .chatFwdResp => some ChatFwdRespPDU.unpack
  | .text => some TextPDU.unpack
  | .disconnectReq => some DisconnectReqPDU.unpack
  | .disconnectNotif => some DisconnectNotifPDU.unpack
  | .ack => none
  | .error => some ErrorPDU.unpack

/-- `SCPHeader.unpack(data[:HEADER_SIZE])`: length check, version check,
then the enum constructor; yields the message type and payload length. -/
def headerUnpack (data : List Nat) : Except PyExc (SCPMessageType × Nat) :=
  match data with
  | v :: t :: h :: l :: _ =>
    if v ≠ SCP_VERSION_1_0 then
      .error (.valueError (asciiBytes "Unsupported SCP version: " ++ natDigits v))
    else
      match msgTypeOfVal t with
      | some mt => .ok (mt, h * 256 + l)
      | none => .error (.valueError (natDigits t ++ asciiBytes " is not a valid SCPMessageType"))
  | _ => .error (.valueError (asciiBytes "Data too short for SCP Header"))

/-- Outcome of the decode portion of `quic_event_received` on a stream-data
event, classified the way the server's `try`/`except` blocks do. -/
inductive DecodeOutcome
  | ok (t : SCPMessageType) (plen : Nat) (p : PDU)
  | malformed (msg : List Nat)
  | lengthMismatch
  | unknownType
  | internal
deriving DecidableEq

/-- The decode portion of `SCPServerProtocol.quic_event_received` for one
`StreamDataReceived` event: header unpack, the explicit payload-length
check, `PDU_UNPACKERS` dispatch and per-type unpack, with `ValueError`
mapped to `malformed` and every other exception to `internal`. -/
def decodeArrival (data : List Nat) : DecodeOutcome :=
  match headerUnpack (data.take 4) with
  | .error (.valueError m) => .malformed m
  | .error _ => .internal
  | .ok (t, plen) =>
    let payload := (data.drop 4).take plen
    if plen ≠ payload.length then .lengthMismatch
    else
      match unpackerFor t with
      | none => .unknownType
      | some f =>
        match f payload with
        | .ok p => .ok t plen p
        | .error (.valueError m) => .malformed m
        | .error _ => .internal

/-! The server model (`src/server.py`). -/

/-- Per-connection fields of `SCPServerProtocol.__init__`.  Peer references
(`Optional[SCPServerProtocol]`) are connection ids. -/
structure Session where
  clientState : SCPServerState := .authenticating
  username : Option (List Nat) := none
  currentChatPartner : Option Nat := none
  pendingChatRequestTo : Option Nat := none
  pendingChatRequestFrom : Option Nat := none
deriving DecidableEq

/-- The module-level server state: every live protocol object (never
garbage-collected here, since stale objects stay observable through peer
references), plus the dicts `connected_clients` (address-keyed; addresses
are identified with connection ids), `active_users` and `chat_sessions`. -/
structure ServerSt where
  sessions : List (Nat × Session) := []
  connectedClients : List Nat := []
  activeUsers : List (List Nat × Nat) := []
  chatSessions : List (Nat × Nat) := []
deriving DecidableEq

/-- Observable effects of a handler: `send_pdu` to a connection, and
closing a connection's transport. -/
inductive Output
  | send (sid : Nat) (pdu : PDU)
  | close (sid : Nat)
deriving DecidableEq

/-- `_send_unexpected_msg_error`. -/
def sendUnexpectedMsgError (st : ServerSt) (sid : Nat) (s : Session) : ServerSt × List Output :=
  (st, [Output.send sid (.error SCP_ERR_UNEXPECTED_MSG_TYPE
    (asciiBytes "Unexpected message in state " ++ stateName s.clientState))])

/-- `handle_connect_req`. -/
def handleConnectReq (st : ServerSt) (sid : Nat) (s : Session) (u : List Nat) :
    ServerSt × List Output :=
  if (alookup st.activeUsers u).isSome then
    (st, [Output.send sid (.connectResp SCP_CONNECT_ERR_USER_EXISTS), Output.close sid])
  else if MAX_CLIENTS ≤ st.activeUsers.length then
    (st, [Output.send sid (.connectResp SCP_CONNECT_ERR_SERVER_FULL), Output.close sid])
  else
    ({ st with
        sessions := aset st.sessions sid { s with username := some u, clientState := .idle },
        activeUsers := aset st.activeUsers u sid,
        connectedClients :=
          if sid ∈ st.connectedClients then st.connectedClients
          else st.connectedClients ++ [sid] },
     [Output.send sid (.connectResp SCP_CONNECT_SUCCESS)])

/-- `handle_chat_init_req`.  `env tid` is whether a stream toward the
target connection is obtained. -/
def handleChatInitReq (env : Nat → Bool) (st : ServerSt) (sid : Nat) (s : Session)
    (myname p : List Nat) : ServerSt × List Output :=
  if p = myname then
    ({ st with sessions := aset st.sessions sid { s with clientState := .idle } },
     [Output.send sid (.chatInitResp SCP_CHAT_INIT_ERR_SELF_CHAT)])
  else
    match alookup st.activeUsers p with
    | none =>
      ({ st with sessions := aset st.sessions sid { s with clientState := .idle } },
       [Output.send sid (.chatInitResp SCP_CHAT_INIT_ERR_PEER_NF)])
    | some tid =>
      match alookup st.sessions tid with
      | none => (st, [])
      | some ts =>
        if ts.clientState ≠ SCPServerState.idle then
          ({ st with sessions := aset st.sessions sid { s with clientState := .idle } },
           [Output.send sid (.chatInitResp SCP_CHAT_INIT_ERR_PEER_BUSY)])
        else if env tid then
          let ts1 : Session :=
            { ts with clientState := .awaitingChatResponse, pendingChatRequestFrom := some sid }
          let s1 : Session :=
            { s with clientState := .awaitingPeerForInit, pendingChatRequestTo := some tid }
          ({ st with sessions := aset (aset st.sessions tid ts1) sid s1 },
           [Output.send tid (.chatFwdReq myname),
            Output.send sid (.chatInitResp SCP_CHAT_INIT_FORWARDED)])
        else
          ({ st with sessions := aset st.sessions sid { s with clientState := .idle } },
           [Output.send sid (.chatInitResp SCP_CHAT_INIT_ERR_PEER_BUSY)])

/-- The server's chat-start notification text,
`f"Chat with X started."`. -/
def chatStartedMsg (n : List Nat) : List Nat :=
  asciiBytes "Chat with " ++ n ++ asciiBytes " started."

/-- `handle_chat_fwd_resp`. -/
def handleChatFwdResp (env : Nat → Bool) (st : ServerSt) (sid : Nat) (s : Session)
    (myname : List Nat) (status : Nat) (origname : List Nat) : ServerSt × List Output :=
  let matched : Option Nat :=
    match alookup st.activeUsers origname with
    | none => none
    | some oid => if s.pendingChatRequestFrom = some oid then some oid else none
  match matched with
  | none =>
    let s1 : Session := { s with clientState := .idle, pendingChatRequestFrom := none }
    ({ st with sessions := aset st.sessions sid s1 }, [])
  | some oid =>
    match alookup st.sessions oid with
    | none => (st, [])
    | some os =>
      if env oid then
        if status = SCP_CHAT_FWD_ACCEPTED then
          let os1 : Session :=
            { os with currentChatPartner := some sid, clientState := .inChat,
                      pendingChatRequestTo := none }
          let s1 : Session :=
            { s with pendingChatRequestFrom := none, currentChatPartner := some oid,
                     clientState := .inChat }
          ({ st with sessions := aset (aset st.sessions oid os1) sid s1,
                     chatSessions := aset (aset st.chatSessions sid oid) oid sid },
           [Output.send oid (.text (chatStartedMsg myname)),
            Output.send sid (.text (chatStartedMsg origname))])
        else
          let os1 : Session := { os with clientState := .idle, pendingChatRequestTo := none }
          let s1 : Session := { s with pendingChatRequestFrom := none, clientState := .idle }
          ({ st with sessions := aset (aset st.sessions oid os1) sid s1 },
           [Output.send oid (.chatInitResp SCP_CHAT_INIT_ERR_PEER_REJECTED)])
      else
        let os1 : Session := { os with clientState := .idle, pendingChatRequestTo := none }
        let s1 : Session := { s with pendingChatRequestFrom := none, clientState := .idle }
        ({ st with sessions := aset (aset st.sessions oid os1) sid s1 }, [])

/-- `handle_text`. -/
def handleText (env : Nat → Bool) (st : ServerSt) (sid : Nat) (s : Session)
    (myname msg : List Nat) : ServerSt × List Output :=
  match s.currentChatPartner with
  | some pid =>
    match alookup st.sessions pid with
    | none => (st, [])
    | some ps =>
      if ps.clientState = SCPServerState.inChat then
        if env pid then
          (st, [Output.send pid (.text (myname ++ asciiBytes ": " ++ msg))])
        else
          (st, [Output.send sid (.error SCP_ERR_INTERNAL_SERVER_ERR
              (asciiBytes "Could not send message to peer."))])
      else
        (st, [Output.send sid (.error SCP_ERR_UNEXPECTED_MSG_TYPE
            (asciiBytes "Cannot send TEXT, not in chat."))])
  | none =>
    (st, [Output.send sid (.error SCP_ERR_UNEXPECTED_MSG_TYPE
        (asciiBytes "Cannot send TEXT, not in chat."))])

/-- `cleanup_client(notify_peer=...)`.  Note that the pending fields of the
cleaned-up session are not reset, exactly as in the code. -/
def cleanupClient (env : Nat → Bool) (st : ServerSt) (sid : Nat) (notifyPeer : Bool) :
    ServerSt × List Output :=
  match alookup st.sessions sid with
  | none => (st, [Output.close sid])
  | some s =>
    let cc := st.connectedClients.erase sid
    let au := match s.username with
      | some u => aerase st.activeUsers u
      | none => st.activeUsers
    match notifyPeer, s.currentChatPartner with
    | true, some pid =>
      match s.username, alookup st.sessions pid with
      | some uname, some ps =>
        let outs := if env pid then [Output.send pid (.disconnectNotif uname)] else []
        let ps1 : Session := { ps with currentChatPartner := none, clientState := .idle }
        let s1 : Session :=
          { s with currentChatPartner := none, clientState := .idle, username := none }
        ({ sessions := aset (aset st.sessions pid ps1) sid s1,
           connectedClients := cc, activeUsers := au,
           chatSessions := aerase (aerase st.chatSessions pid) sid },
         outs ++ [Output.close sid])
      | _, _ =>
        -- Unreachable: notifyPeer is true only for DISCONNECT_REQ, whose
        -- dispatch requires a registered username, and a chat-partner
        -- reference is always a live protocol object (CPython would raise
        -- before mutating further).
        ({ st with connectedClients := cc, activeUsers := au }, [Output.close sid])
    | _, _ =>
      let s1 : Session :=
        { s with currentChatPartner := none, clientState := .idle, username := none }
      ({ sessions := aset st.sessions sid s1,
         connectedClients := cc, activeUsers := au,
         chatSessions := aerase st.chatSessions sid },
       [Output.close sid])

/-- The post-authentication arm of `handle_scp_message`'s `elif` chain
(only called for non-CONNECT_REQ PDUs of sessions with a username). -/
def dispatchAuthed (env : Nat → Bool) (st : ServerSt) (sid : Nat) (s : Session)
    (myname : List Nat) (pdu : PDU) : ServerSt × List Output :=
  match pdu with
  | .chatInitReq p =>
    if s.clientState = SCPServerState.idle then handleChatInitReq env st sid s myname p
    else sendUnexpectedMsgError st sid s
  | .chatFwdResp c o =>
    if s.clientState = SCPServerState.awaitingChatResponse then
      handleChatFwdResp env st sid s myname c o
    else sendUnexpectedMsgError st sid s
  | .text m =>
    if s.clientState = SCPServerState.inChat then handleText env st sid s myname m
    else sendUnexpectedMsgError st sid s
  | .disconnectReq => cleanupClient env st sid true
  | _ => sendUnexpectedMsgError st sid s

/-- `handle_scp_message`: CONNECT_REQ gated on AUTHENTICATING; every other
message from an unauthenticated connection closes the transport; otherwise
per-type state gating. -/
def handleScpMessage (env : Nat → Bool) (st : ServerSt) (sid : Nat) (pdu : PDU) :
    ServerSt × List Output :=
  match alookup st.sessions sid with
  | none => (st, [])
  | some s =>
    match pdu with
    | .connectReq u =>
      if s.clientState = SCPServerState.authenticating then handleConnectReq st sid s u
      else sendUnexpectedMsgError st sid s
    | _ =>
      match s.username with
      | none => (st, [Output.close sid])
      | some myname => dispatchAuthed env st sid s myname pdu

/-- `quic_event_received` on a `StreamDataReceived` event: the decode
portion (`decodeArrival`) followed by dispatch; each error class is
answered with the corresponding ERROR PDU on the same stream.  There is no
per-stream byte buffer: each arrival's `event.data` is processed alone. -/
def serverArrival (env : Nat → Bool) (st : ServerSt) (sid : Nat) (data : List Nat) :
    ServerSt × List Output :=
  match decodeArrival data with
  | .ok _ _ pdu => handleScpMessage env st sid pdu
  | .malformed m => (st, [Output.send sid (.error SCP_ERR_MALFORMED_MSG m)])
  | .lengthMismatch =>
    (st, [Output.send sid (.error SCP_ERR_MALFORMED_MSG (asciiBytes "Invalid payload length"))])
  | .unknownType =>
    (st, [Output.send sid (.error SCP_ERR_MALFORMED_MSG (asciiBytes "Unknown message type"))])
  | .internal =>
    (st, [Output.send sid (.error SCP_ERR_INTERNAL_SERVER_ERR
        (asciiBytes "Server error processing message"))])

/-- Transport-level events driving one server session each. -/
inductive Event
  | connect (sid : Nat)
  | message (sid : Nat) (pdu : PDU)
  | terminated (sid : Nat)
deriving DecidableEq

/-- One event step: connection accept instantiates a fresh protocol object;
a decoded PDU goes through `handle_scp_message`; `ConnectionTerminated`
calls `cleanup_client()` with `notify_peer` left at its default `False`
(`src/server.py`, line 110). -/
def serverStep (env : Nat → Bool) (st : ServerSt) : Event → ServerSt × List Output
  | .connect sid => ({ st with sessions := aset st.sessions sid {} }, [])
  | .message sid pdu => handleScpMessage env st sid pdu
  | .terminated sid => cleanupClient env st sid false

/-- Run a sequence of events, keeping the final state. -/
def runServer (env : Nat → Bool) (st : ServerSt) : List Event → ServerSt
  | [] => st
  | e :: es => runServer env (serverStep env st e).1 es

/-- The stream oracle in which every peer stream is obtainable. -/
def envTrue : Nat → Bool := fun _ => true

/-- Formalisation of the pair-symmetry invariant of claim C2: every session
holding a peer reference points at a live session that points back, both
are IN_CHAT, and all four pending fields of the two sessions are clear. -/
def pairSymB (st : ServerSt) : Bool :=
  st.sessions.all fun q =>
    match q.2.currentChatPartner with
    | none => true
    | some pid =>
      match alookup st.sessions pid with
      | none => false
      | some ps =>
        decide (ps.currentChatPartner = some q.1) &&
        decide (q.2.clientState = .inChat) && decide (ps.clientState = .inChat) &&
        decide (q.2.pendingChatRequestFrom = none) &&
        decide (q.2.pendingChatRequestTo = none) &&
        decide (ps.pendingChatRequestFrom = none) &&
        decide (ps.pendingChatRequestTo = none)

/-- Transcription of the section 4.3 transition table of the spec: the
state/message pairs that have a transition row (the DISCONNECT_REQ row
applies to every post-authentication state).  This definition follows the
spec's words, for comparison against the code's dispatcher. -/
def specTableHasRow : SCPServerState → PDU → Bool
  | .authenticating, .connectReq _ => true
  | .idle, .chatInitReq _ => true
  | .awaitingChatResponse, .chatFwdResp _ _ => true
  | .inChat, .text _ => true
  | _, .disconnectReq => true
  | _, _ => false

/-- Usernames used by the concrete scenarios. -/
def aliceName : List Nat := asciiBytes "alice"

/-- Usernames used by the concrete scenarios. -/
def bobName : List Nat := asciiBytes "bob"

/-- Event trace registering alice (connection 1) and bob (connection 2) and
forming their chat pair (the happy path E1 of the spec). -/
def pairTrace : List Event :=
  [ .connect 1, .message 1 (.connectReq aliceName),
    .connect 2, .message 2 (.connectReq bobName),
    .message 1 (.chatInitReq bobName),
    .message 2 (.chatFwdResp SCP_CHAT_FWD_ACCEPTED aliceName) ]

/-- The server state with alice and bob paired IN_CHAT. -/
def pairedSt : ServerSt := runServer envTrue {} pairTrace

/-- The wire limits under which `pack` succeeds: names and single-byte
statuses fit `!B`, error codes fit `!H`, and a TEXT body is at most 65533
bytes so that its payload (two length bytes plus the body) still fits the
header's `!H` payload-length field. -/
def PDU.wireOk : PDU → Bool
  | .connectReq u => u.length ≤ 255 && utf8Valid u
  | .connectResp c => c ≤ 255
  | .chatInitReq u => u.length ≤ 255 && utf8Valid u
  | .chatInitResp c => c ≤ 255
  | .chatFwdReq u => u.length ≤ 255 && utf8Valid u
  | .chatFwdResp c u => c ≤ 255 && (u.length ≤ 255 && utf8Valid u)
  | .text m => m.length ≤ 65533 && utf8Valid m
  | .disconnectReq => true
  | .disconnectNotif u => u.length ≤ 255 && utf8Valid u
  | .error c m => c ≤ 65535 && (m.length ≤ 255 && utf8Valid m)

/-- The guard of `handle_chat_fwd_resp`'s early-return branch: the named
originator is unknown, or is not the session recorded in the responder's
`pending_chat_request_from`. -/
def fwdRespMismatch (st : ServerSt) (s : Session) (orig : List Nat) : Bool :=
  match alookup st.activeUsers orig with
  | none => true
  | some oid => decide (s.pendingChatRequestFrom ≠ some oid)

/-- A freshly accepted, still unauthenticated connection 1. -/
def c4St : ServerSt := { sessions := [(1, {})] }

/-- Alice (connection 1) has invited bob (connection 2): alice awaits the
forwarding result, bob owes a CHAT_FWD_RESP. -/
def pendingSt : ServerSt :=
  { sessions :=
      [(1, { clientState := .awaitingPeerForInit, username := some aliceName,
             pendingChatRequestTo := some 2 }),
       (2, { clientState := .awaitingChatResponse, username := some bobName,
             pendingChatRequestFrom := some 1 })],
    connectedClients := [1, 2],
    activeUsers := [(aliceName, 1), (bobName, 2)] }

/-- Alice is registered on connection 1; connection 2 is still
authenticating. -/
def dupSt : ServerSt :=
  { sessions := [(1, { clientState := .idle, username := some aliceName }), (2, {})],
    connectedClients := [1],
    activeUsers := [(aliceName, 1)] }

/-! Association-list lemmas. -/

theorem alookup_aset {α β : Type} [DecidableEq α] (l : List (α × β)) (k : α) (v : β) :
    alookup (aset l k v) k = some v := by
  induction l with
  | nil => simp [aset, alookup]
  | cons p t ih =>
    by_cases h : k = p.1
    · simp [aset, alookup, h]
    · simp [aset, alookup, h, ih]

theorem alookup_aset_ne {α β : Type} [DecidableEq α] (l : List (α × β)) (k k1 : α) (v : β)
    (h : k1 ≠ k) : alookup (aset l k v) k1 = alookup l k1 := by
  induction l with
  | nil => simp [aset, alookup, h]
  | cons p t ih =>
    by_cases hk : k = p.1
    · subst hk
      simp [aset, alookup, h, ih]
    · by_cases hk1 : k1 = p.1
      · simp [aset, alookup, hk, hk1]
      · simp [aset, alookup, hk, hk1, ih]

/-- The enum round-trip `SCPMessageType(t.value) = t`. -/
theorem msgTypeOfVal_val (t : SCPMessageType) : msgTypeOfVal t.val = some t := by
  cases t <;> decide

/-- Decoding a correctly framed message (version byte 1, a type byte of a
known type, the payload length split into its two big-endian bytes)
reduces to dispatching the payload unpacker. -/
theorem decodeArrival_frame_ok (t : SCPMessageType) (payload : List Nat) (p : PDU)
    (f : List Nat → Except PyExc PDU)
    (hf : unpackerFor t = some f) (hp : f payload = .ok p) :
    decodeArrival (SCP_VERSION_1_0 :: t.val :: payload.length / 256 ::
        payload.length % 256 :: payload) =
      DecodeOutcome.ok t payload.length p := by
  have hdm : payload.length / 256 * 256 + payload.length % 256 = payload.length := by omega
  unfold decodeArrival
  simp [headerUnpack, SCP_VERSION_1_0, msgTypeOfVal_val, hdm, hf, hp, List.take_length]

/-! Claim theorems. -/

/-- Claim C1.  The DISCONNECT_REQ path does perform the full cleanup, but a
transport-terminate event reaches `cleanup_client()` with `notify_peer`
left `False` (`src/server.py`, line 110): in the paired state, terminating
alice's transport leaves bob IN_CHAT with a dangling peer reference and a
surviving pair entry, and sends no DISCONNECT_NOTIF — contradicting the
claim's "either ... or" cleanup guarantee. -/
theorem claim_C1_cleanup_divergence :
    (alookup (handleScpMessage envTrue pairedSt 1 PDU.disconnectReq).1.sessions 2 =
        some { clientState := .idle, username := some bobName } ∧
      (handleScpMessage envTrue pairedSt 1 PDU.disconnectReq).1.chatSessions = [] ∧
      alookup (handleScpMessage envTrue pairedSt 1 PDU.disconnectReq).1.activeUsers aliceName =
        none ∧
      (handleScpMessage envTrue pairedSt 1 PDU.disconnectReq).2 =
        [Output.send 2 (.disconnectNotif aliceName), Output.close 1]) ∧
    (alookup (serverStep envTrue pairedSt (.terminated 1)).1.sessions 2 =
        some { clientState := .inChat, username := some bobName,
               currentChatPartner := some 1 } ∧
      alookup (serverStep envTrue pairedSt (.terminated 1)).1.chatSessions 2 = some 1 ∧
      (serverStep envTrue pairedSt (.terminated 1)).2 = [Output.close 1]) := by
  decide

/-- Claim C2.  The pair-symmetry invariant holds in the reachable paired
state but is broken by the cleanup run for a transport-terminate event of a
paired session (the same `notify_peer=False` slip as claim C1): afterwards
bob still points at alice while alice's peer reference is cleared. -/
theorem claim_C2_pair_symmetry_broken :
    pairSymB pairedSt = true ∧
    pairSymB (serverStep envTrue pairedSt (.terminated 1)).1 = false := by
  decide

/-- Claim C4, counterexample.  For the off-table combination of state
AUTHENTICATING and a TEXT PDU the server does not respond with
ERROR(UNEXPECTED_TYPE): it closes the transport without sending anything
(the `self.username is None` branch of `handle_scp_message`). -/
theorem claim_C4_counterexample :
    handleScpMessage envTrue c4St 1 (.text (asciiBytes "foo")) = (c4St, [Output.close 1]) := by
  decide

/-- Claim C5, counterexample.  The frame `01 01 00 00` (a CONNECT_REQ with
an empty payload) drives `ConnectReqPDU.unpack` into `payload[0]`, an
IndexError — neither NeedMore nor a MalformedError — which the server
surfaces as ERROR(INTERNAL). -/
theorem claim_C5_counterexample :
    decodeArrival [1, 1, 0, 0] = DecodeOutcome.internal ∧
    serverArrival envTrue c4St 1 [1, 1, 0, 0] =
      (c4St, [Output.send 1 (.error SCP_ERR_INTERNAL_SERVER_ERR
        (asciiBytes "Server error processing message"))]) := by
  decide

/-- Claim C6, counterexample.  A CONNECT_REQ("alice") frame split after its
4-byte header is never decoded: the first arrival draws
ERROR(MALFORMED, "Invalid payload length"), the remainder is parsed as a
fresh (bad-version) header, and the session stays unauthenticated — there
is no cross-arrival buffer. -/
theorem claim_C6_counterexample :
    serverArrival envTrue c4St 1 [1, 1, 0, 6] =
      (c4St, [Output.send 1 (.error SCP_ERR_MALFORMED_MSG
        (asciiBytes "Invalid payload length"))]) ∧
    serverArrival envTrue c4St 1 [5, 97, 108, 105, 99, 101] =
      (c4St, [Output.send 1 (.error SCP_ERR_MALFORMED_MSG
        (asciiBytes "Unsupported SCP version: " ++ natDigits 5))]) ∧
    alookup c4St.sessions 1 = some { clientState := .authenticating, username := none } := by
  decide

/-- Claim C9, counterexample.  A version byte of 2 is surfaced as an ERROR
PDU with code MALFORMED (0x0001) — `quic_event_received` catches the
`ValueError` with `SCP_ERR_MALFORMED_MSG` — not UNSUPPORTED_VERSION
(0x0005), which the server never emits. -/
theorem claim_C9_counterexample :
    serverArrival envTrue c4St 1 [2, 1, 0, 0] =
      (c4St, [Output.send 1 (.error SCP_ERR_MALFORMED_MSG
        (asciiBytes "Unsupported SCP version: " ++ natDigits 2))]) ∧
    SCP_ERR_MALFORMED_MSG ≠ SCP_ERR_UNSUPPORTED_VERSION := by
  decide

/-- Claim C5, amended.  For every arrival the decode path yields a decoded
PDU (which is dispatched), or a MalformedError-class outcome answered by a
single ERROR(MALFORMED) with the state unchanged, or an
uncaught-exception outcome (index/struct errors) answered by a single
ERROR(INTERNAL) with the state unchanged; there is no NeedMore outcome. -/
theorem claim_C5_decode_outcomes (env : Nat → Bool) (st : ServerSt) (sid : Nat)
    (bs : List Nat) :
    (∃ t plen p, decodeArrival bs = DecodeOutcome.ok t plen p ∧
        serverArrival env st sid bs = handleScpMessage env st sid p) ∨
    (∃ m, serverArrival env st sid bs =
        (st, [Output.send sid (.error SCP_ERR_MALFORMED_MSG m)])) ∨
    serverArrival env st sid bs =
      (st, [Output.send sid (.error SCP_ERR_INTERNAL_SERVER_ERR
        (asciiBytes "Server error processing message"))]) := by
  cases h : decodeArrival bs with
  | ok t plen p => exact Or.inl ⟨t, plen, p, rfl, by simp [serverArrival, h]⟩
  | malformed m => exact Or.inr (Or.inl ⟨m, by simp [serverArrival, h]⟩)
  | lengthMismatch =>
    exact Or.inr (Or.inl ⟨asciiBytes "Invalid payload length", by simp [serverArrival, h]⟩)
  | unknownType =>
    exact Or.inr (Or.inl ⟨asciiBytes "Unknown message type", by simp [serverArrival, h]⟩)
  | internal => exact Or.inr (Or.inr (by simp [serverArrival, h]))

/-- Claim C6, amended.  The receiver keeps no cross-arrival buffer: an
arrival is processed alone, and whenever its first bytes span a whole
frame (the declared payload length equals the bytes that follow the
header), any trailing bytes in the same arrival are ignored. -/
theorem claim_C6_arrival_local (env : Nat → Bool) (st : ServerSt) (sid : Nat)
    (b0 b1 h l : Nat) (payload rest : List Nat)
    (hlen : payload.length = h * 256 + l) :
    serverArrival env st sid (b0 :: b1 :: h :: l :: (payload ++ rest)) =
      serverArrival env st sid (b0 :: b1 :: h :: l :: payload) := by
  have hdec : decodeArrival (b0 :: b1 :: h :: l :: (payload ++ rest)) =
      decodeArrival (b0 :: b1 :: h :: l :: payload) := by
    have hp1 : (payload ++ rest).take (h * 256 + l) = payload := by
      rw [← hlen]; exact List.take_left payload rest
    have hp2 : payload.take (h * 256 + l) = payload := by
      rw [← hlen]; exact List.take_length payload
    by_cases hb0 : b0 = SCP_VERSION_1_0
    · rcases hmt : msgTypeOfVal b1 with _ | t
      · simp [decodeArrival, headerUnpack, hb0, hmt]
      · simp [decodeArrival, headerUnpack, hb0, hmt, hp1, hp2]
    · simp [decodeArrival, headerUnpack, hb0]
  unfold serverArrival
  rw [hdec]

/-- Witness for claim C6's amended theorem: a whole DISCONNECT_REQ frame
with two trailing garbage bytes is handled exactly like the bare frame. -/
theorem claim_C6_witness :
    serverArrival envTrue c4St 1 [1, 8, 0, 0, 9, 9] =
      serverArrival envTrue c4St 1 [1, 8, 0, 0] :=
  claim_C6_arrival_local envTrue c4St 1 1 8 0 0 [] [9, 9] (by decide)

/-- Claim C9, amended.  Any arrival whose version byte differs from 0x01
raises `ValueError("Unsupported SCP version: ...")` in `SCPHeader.unpack`,
which the server answers with an ERROR PDU carrying code MALFORMED
(0x0001) — not UNSUPPORTED_VERSION (0x0005) — and the decimal version in
its message; the state is unchanged. -/
theorem claim_C9_bad_version (env : Nat → Bool) (st : ServerSt) (sid : Nat)
    (v b1 b2 b3 : Nat) (rest : List Nat) (hv : v ≠ SCP_VERSION_1_0) :
    serverArrival env st sid (v :: b1 :: b2 :: b3 :: rest) =
      (st, [Output.send sid (.error SCP_ERR_MALFORMED_MSG
        (asciiBytes "Unsupported SCP version: " ++ natDigits v))]) := by
  simp [serverArrival, decodeArrival, headerUnpack, hv]

/-- Witness for claim C9's amended theorem at version byte 7. -/
theorem claim_C9_witness :
    serverArrival envTrue c4St 1 [7, 0, 0, 0] =
      (c4St, [Output.send 1 (.error SCP_ERR_MALFORMED_MSG
        (asciiBytes "Unsupported SCP version: " ++ natDigits 7))]) :=
  claim_C9_bad_version envTrue c4St 1 7 0 0 0 [] (by decide)

/-- Claim C4, amended.  For every session that has completed registration
(username set), a well-formed PDU whose type has no transition row for the
session's state in the section 4.3 table is answered by exactly one
ERROR(UNEXPECTED_TYPE) and the entire server state — hence the session's
state, username, peer reference and pending fields — is unchanged.  (An
unauthenticated session sending any non-CONNECT_REQ PDU instead has its
transport closed with no ERROR; see the counterexample.) -/
theorem claim_C4_offtable_unexpected (env : Nat → Bool) (st : ServerSt) (sid : Nat)
    (s : Session) (myname : List Nat) (pdu : PDU)
    (hs : alookup st.sessions sid = some s)
    (huser : s.username = some myname)
    (hoff : specTableHasRow s.clientState pdu = false) :
    handleScpMessage env st sid pdu =
      (st, [Output.send sid (.error SCP_ERR_UNEXPECTED_MSG_TYPE
        (asciiBytes "Unexpected message in state " ++ stateName s.clientState))]) := by
  cases pdu with
  | connectReq u =>
    by_cases hst : s.clientState = SCPServerState.authenticating
    · rw [hst] at hoff; simp [specTableHasRow] at hoff
    · simp [handleScpMessage, hs, hst, sendUnexpectedMsgError]
  | chatInitReq p =>
    by_cases hst : s.clientState = SCPServerState.idle
    · rw [hst] at hoff; simp [specTableHasRow] at hoff
    · simp [handleScpMessage, dispatchAuthed, hs, huser, hst, sendUnexpectedMsgError]
  | chatFwdResp c o =>
    by_cases hst : s.clientState = SCPServerState.awaitingChatResponse
    · rw [hst] at hoff; simp [specTableHasRow] at hoff
    · simp [handleScpMessage, dispatchAuthed, hs, huser, hst, sendUnexpectedMsgError]
  | text m =>
    by_cases hst : s.clientState = SCPServerState.inChat
    · rw [hst] at hoff; simp [specTableHasRow] at hoff
    · simp [handleScpMessage, dispatchAuthed, hs, huser, hst, sendUnexpectedMsgError]
  | disconnectReq =>
    cases hst : s.clientState <;> rw [hst] at hoff <;> simp [specTableHasRow] at hoff
  | connectResp c =>
    simp [handleScpMessage, dispatchAuthed, hs, huser, sendUnexpectedMsgError]
  | chatInitResp c =>
    simp [handleScpMessage, dispatchAuthed, hs, huser, sendUnexpectedMsgError]
  | chatFwdReq o =>
    simp [handleScpMessage, dispatchAuthed, hs, huser, sendUnexpectedMsgError]
  | disconnectNotif u =>
    simp [handleScpMessage, dispatchAuthed, hs, huser, sendUnexpectedMsgError]
  | error c m =>
    simp [handleScpMessage, dispatchAuthed, hs, huser, sendUnexpectedMsgError]

/-- Witness for claim C4's amended theorem: TEXT in state
AWAITING_PEER_FOR_INIT (an off-table combination) for registered alice. -/
theorem claim_C4_witness :
    handleScpMessage envTrue pendingSt 1 (.text (asciiBytes "hi")) =
      (pendingSt, [Output.send 1 (.error SCP_ERR_UNEXPECTED_MSG_TYPE
        (asciiBytes "Unexpected message in state " ++
          stateName SCPServerState.awaitingPeerForInit))]) :=
  claim_C4_offtable_unexpected envTrue pendingSt 1
    { clientState := .awaitingPeerForInit, username := some aliceName,
      pendingChatRequestTo := some 2 }
    aliceName (.text (asciiBytes "hi")) (by decide) (by decide) (by decide)

/-- Claim C7.  In AWAITING_CHAT_RESPONSE, a CHAT_FWD_RESP(ACCEPTED) whose
originator matches `pending_chat_request_from` (and is registered) forms
the pair: both sessions move to IN_CHAT with mutual peer references, the
acceptor's `pending_chat_request_from` and the originator's
`pending_chat_request_to` are cleared, both pair-map entries are written,
and each party is sent the TEXT chat-start notification naming its peer. -/
theorem claim_C7_accept_forms_pair (env : Nat → Bool) (st : ServerSt) (sid oid : Nat)
    (s os : Session) (myname orig : List Nat)
    (hs : alookup st.sessions sid = some s)
    (hstate : s.clientState = .awaitingChatResponse)
    (huser : s.username = some myname)
    (horig : alookup st.activeUsers orig = some oid)
    (hpend : s.pendingChatRequestFrom = some oid)
    (hos : alookup st.sessions oid = some os)
    (hne : oid ≠ sid)
    (henv : env oid = true) :
    alookup (handleScpMessage env st sid (.chatFwdResp SCP_CHAT_FWD_ACCEPTED orig)).1.sessions
        sid =
      some { s with clientState := .inChat, currentChatPartner := some oid,
                    pendingChatRequestFrom := none } ∧
    alookup (handleScpMessage env st sid (.chatFwdResp SCP_CHAT_FWD_ACCEPTED orig)).1.sessions
        oid =
      some { os with clientState := .inChat, currentChatPartner := some sid,
                     pendingChatRequestTo := none } ∧
    alookup (handleScpMessage env st sid
        (.chatFwdResp SCP_CHAT_FWD_ACCEPTED orig)).1.chatSessions sid = some oid ∧
    alookup (handleScpMessage env st sid
        (.chatFwdResp SCP_CHAT_FWD_ACCEPTED orig)).1.chatSessions oid = some sid ∧
    (handleScpMessage env st sid (.chatFwdResp SCP_CHAT_FWD_ACCEPTED orig)).2 =
      [Output.send oid (.text (chatStartedMsg myname)),
       Output.send sid (.text (chatStartedMsg orig))] := by
  have hmain : handleScpMessage env st sid (.chatFwdResp SCP_CHAT_FWD_ACCEPTED orig) =
      ({ st with
          sessions :=
            aset (aset st.sessions oid
                { os with currentChatPartner := some sid, clientState := .inChat,
                          pendingChatRequestTo := none })
              sid { s with pendingChatRequestFrom := none, currentChatPartner := some oid,
                           clientState := .inChat },
          chatSessions := aset (aset st.chatSessions sid oid) oid sid },
       [Output.send oid (.text (chatStartedMsg myname)),
        Output.send sid (.text (chatStartedMsg orig))]) := by
    simp [handleScpMessage, dispatchAuthed, handleChatFwdResp, hs, hstate, huser, horig,
      hpend, hos, henv]
  rw [hmain]
  refine ⟨?_, ?_, ?_, ?_, rfl⟩
  · exact alookup_aset _ _ _
  · rw [alookup_aset_ne _ _ _ _ hne]; exact alookup_aset _ _ _
  · rw [alookup_aset_ne _ _ _ _ (Ne.symm hne)]; exact alookup_aset _ _ _
  · exact alookup_aset _ _ _

/-- Witness for claim C7: bob (connection 2) accepts alice's invitation in
the pending state. -/
theorem claim_C7_witness :
    alookup (handleScpMessage envTrue pendingSt 2
        (.chatFwdResp SCP_CHAT_FWD_ACCEPTED aliceName)).1.sessions 2 =
      some { clientState := .inChat, username := some bobName,
             currentChatPartner := some 1 } ∧
    alookup (handleScpMessage envTrue pendingSt 2
        (.chatFwdResp SCP_CHAT_FWD_ACCEPTED aliceName)).1.sessions 1 =
      some { clientState := .inChat, username := some aliceName,
             currentChatPartner := some 2 } ∧
    alookup (handleScpMessage envTrue pendingSt 2
        (.chatFwdResp SCP_CHAT_FWD_ACCEPTED aliceName)).1.chatSessions 2 = some 1 ∧
    alookup (handleScpMessage envTrue pendingSt 2
        (.chatFwdResp SCP_CHAT_FWD_ACCEPTED aliceName)).1.chatSessions 1 = some 2 ∧
    (handleScpMessage envTrue pendingSt 2
        (.chatFwdResp SCP_CHAT_FWD_ACCEPTED aliceName)).2 =
      [Output.send 1 (.text (chatStartedMsg bobName)),
       Output.send 2 (.text (chatStartedMsg aliceName))] :=
  claim_C7_accept_forms_pair envTrue pendingSt 2 1
    { clientState := .awaitingChatResponse, username := some bobName,
      pendingChatRequestFrom := some 1 }
    { clientState := .awaitingPeerForInit, username := some aliceName,
      pendingChatRequestTo := some 2 }
    bobName aliceName (by decide) (by decide) (by decide) (by decide) (by decide)
    (by decide) (by decide) (by decide)

/-- Claim C8.  A CONNECT_REQ in AUTHENTICATING naming an already registered
user is answered by CONNECT_RESP(USER_EXISTS) followed by a transport
close, and the server state — in particular the registry, whose existing
binding keeps the name — is entirely unchanged. -/
theorem claim_C8_duplicate_name (env : Nat → Bool) (st : ServerSt) (sid : Nat)
    (s : Session) (u : List Nat)
    (hs : alookup st.sessions sid = some s)
    (hstate : s.clientState = .authenticating)
    (hdup : (alookup st.activeUsers u).isSome = true) :
    handleScpMessage env st sid (.connectReq u) =
      (st, [Output.send sid (.connectResp SCP_CONNECT_ERR_USER_EXISTS), Output.close sid]) := by
  simp [handleScpMessage, handleConnectReq, hs, hstate, hdup]

/-- Witness for claim C8: a second connection claims "alice". -/
theorem claim_C8_witness :
    handleScpMessage envTrue dupSt 2 (.connectReq aliceName) =
      (dupSt, [Output.send 2 (.connectResp SCP_CONNECT_ERR_USER_EXISTS), Output.close 2]) :=
  claim_C8_duplicate_name envTrue dupSt 2 {} aliceName (by decide) (by decide) (by decide)

/-- Claim C10.  A CHAT_FWD_RESP in AWAITING_CHAT_RESPONSE whose originator
is unknown or does not match `pending_chat_request_from` resets only the
responding session (to IDLE, pending cleared), emits no PDU, and leaves
every other session — in particular the true originator — unchanged. -/
theorem claim_C10_mismatched_fwd_resp (env : Nat → Bool) (st : ServerSt) (sid : Nat)
    (s : Session) (myname : List Nat) (status : Nat) (orig : List Nat)
    (hs : alookup st.sessions sid = some s)
    (hstate : s.clientState = .awaitingChatResponse)
    (huser : s.username = some myname)
    (hmis : fwdRespMismatch st s orig = true) :
    handleScpMessage env st sid (.chatFwdResp status orig) =
      ({ st with sessions := aset st.sessions sid { s with clientState := .idle, pendingChatRequestFrom := none } }, []) ∧
    ∀ j, j ≠ sid →
      alookup (handleScpMessage env st sid (.chatFwdResp status orig)).1.sessions j =
        alookup st.sessions j := by
  have hmain : handleScpMessage env st sid (.chatFwdResp status orig) =
      ({ st with sessions := aset st.sessions sid { s with clientState := .idle, pendingChatRequestFrom := none } }, []) := by
    cases ho : alookup st.activeUsers orig with
    | none =>
      simp [handleScpMessage, dispatchAuthed, handleChatFwdResp, hs, hstate, huser, ho]
    | some oid =>
      have hne : s.pendingChatRequestFrom ≠ some oid := by
        simpa [fwdRespMismatch, ho] using hmis
      simp [handleScpMessage, dispatchAuthed, handleChatFwdResp, hs, hstate, huser, ho, hne]
  refine ⟨hmain, fun j hj => ?_⟩
  rw [hmain]
  exact alookup_aset_ne _ _ _ _ hj

/-- Witness for claim C10: bob answers with originator "bob", which does
not match his pending inviter alice. -/
theorem claim_C10_witness :
    (handleScpMessage envTrue pendingSt 2 (.chatFwdResp SCP_CHAT_FWD_ACCEPTED bobName) =
      ({ pendingSt with sessions := aset pendingSt.sessions 2 { clientState := .idle, username := some bobName, pendingChatRequestFrom := none } }, [])) ∧
    ∀ j, j ≠ 2 →
      alookup (handleScpMessage envTrue pendingSt 2
          (.chatFwdResp SCP_CHAT_FWD_ACCEPTED bobName)).1.sessions j =
        alookup pendingSt.sessions j :=
  claim_C10_mismatched_fwd_resp envTrue pendingSt 2
    { clientState := .awaitingChatResponse, username := some bobName,
      pendingChatRequestFrom := some 1 }
    bobName SCP_CHAT_FWD_ACCEPTED bobName (by decide) (by decide) (by decide) (by decide)

/-- Any TEXT body of 65534 bytes or more makes `pack` fail: the payload is
the body plus two length bytes, which no longer fits the header's `!H`
payload-length field (`SCPHeader.pack` raises `struct.error`). -/
theorem pack_text_overflow (m : List Nat) (h : 65534 ≤ m.length) :
    PDU.pack (.text m) = none := by
  by_cases h1 : m.length < 65536
  · have h2 : ¬ (m.length + 1 + 1 < 65536) := by omega
    simp [PDU.pack, packWithHeader, h1, h2]
  · simp [PDU.pack, h1]

/-- Claim C3, counterexample.  A TEXT PDU whose body has 65535 bytes is
within the claim's stated wire limits, yet encoding it fails — so
decode(encode(p)) does not exist for this p. -/
theorem claim_C3_counterexample :
    PDU.pack (.text (List.replicate 65535 97)) = none :=
  pack_text_overflow (List.replicate 65535 97)
    (by rw [List.length_replicate]; omega)

/-- Claim C3, amended.  For every PDU within the wire limits — names and
statuses bounded as before, but TEXT bodies of at most 65533 bytes so the
payload length fits the header — encoding succeeds and decoding the
resulting frame recovers the message type, the payload length of the
encoding, and a PDU with exactly the original fields. -/
theorem claim_C3_roundtrip (p : PDU) (hp : p.wireOk = true) :
    ∃ bs plen, p.pack = some bs ∧ bs.length = 4 + plen ∧
      decodeArrival bs = DecodeOutcome.ok p.msgType plen p := by
  cases p with
  | connectReq u =>
    simp only [PDU.wireOk, Bool.and_eq_true, decide_eq_true_eq] at hp
    obtain ⟨h1, h2⟩ := hp
    have hlt : u.length < 256 := by omega
    have hlt2 : u.length + 1 < 65536 := by omega
    have hup : ConnectReqPDU.unpack (u.length :: u) = .ok (.connectReq u) := by
      simp [ConnectReqPDU.unpack, pyDecodeUtf8, List.take_length, h2]
    have hdec := decodeArrival_frame_ok .connectReq (u.length :: u) (.connectReq u)
      ConnectReqPDU.unpack rfl hup
    have hpack : PDU.pack (.connectReq u) =
        some (SCP_VERSION_1_0 :: SCPMessageType.connectReq.val ::
          (u.length :: u).length / 256 :: (u.length :: u).length % 256 :: u.length :: u) := by
      simp [PDU.pack, packWithHeader, hlt, hlt2]
    refine ⟨_, (u.length :: u).length, hpack, by (simp; omega), hdec⟩
  | connectResp c =>
    simp only [PDU.wireOk, decide_eq_true_eq] at hp
    have hlt : c < 256 := by omega
    have hup : ConnectRespPDU.unpack [c] = .ok (.connectResp c) := rfl
    have hdec := decodeArrival_frame_ok .connectResp [c] (.connectResp c)
      ConnectRespPDU.unpack rfl hup
    have hpack : PDU.pack (.connectResp c) =
        some (SCP_VERSION_1_0 :: SCPMessageType.connectResp.val ::
          [c].length / 256 :: [c].length % 256 :: [c]) := by
      simp [PDU.pack, packWithHeader, hlt]
    refine ⟨_, [c].length, hpack, by simp, hdec⟩
  | chatInitReq u =>
    simp only [PDU.wireOk, Bool.and_eq_true, decide_eq_true_eq] at hp
    obtain ⟨h1, h2⟩ := hp
    have hlt : u.length < 256 := by omega
    have hlt2 : u.length + 1 < 65536 := by omega
    have hup : ChatInitReqPDU.unpack (u.length :: u) = .ok (.chatInitReq u) := by
      simp [ChatInitReqPDU.unpack, pyDecodeUtf8, List.take_length, h2]
    have hdec := decodeArrival_frame_ok .chatInitReq (u.length :: u) (.chatInitReq u)
      ChatInitReqPDU.unpack rfl hup
    have hpack : PDU.pack (.chatInitReq u) =
        some (SCP_VERSION_1_0 :: SCPMessageType.chatInitReq.val ::
          (u.length :: u).length / 256 :: (u.length :: u).length % 256 :: u.length :: u) := by
      simp [PDU.pack, packWithHeader, hlt, hlt2]
    refine ⟨_, (u.length :: u).length, hpack, by (simp; omega), hdec⟩
  | chatInitResp c =>
    simp only [PDU.wireOk, decide_eq_true_eq] at hp
    have hlt : c < 256 := by omega
    have hup : ChatInitRespPDU.unpack [c] = .ok (.chatInitResp c) := rfl
    have hdec := decodeArrival_frame_ok .chatInitResp [c] (.chatInitResp c)
      ChatInitRespPDU.unpack rfl hup
    have hpack : PDU.pack (.chatInitResp c) =
        some (SCP_VERSION_1_0 :: SCPMessageType.chatInitResp.val ::
          [c].length / 256 :: [c].length % 256 :: [c]) := by
      simp [PDU.pack, packWithHeader, hlt]
    refine ⟨_, [c].length, hpack, by simp, hdec⟩
  | chatFwdReq u =>
    simp only [PDU.wireOk, Bool.and_eq_true, decide_eq_true_eq] at hp
    obtain ⟨h1, h2⟩ := hp
    have hlt : u.length < 256 := by omega
    have hlt2 : u.length + 1 < 65536 := by omega
    have hup : ChatFwdReqPDU.unpack (u.length :: u) = .ok (.chatFwdReq u) := by
      simp [ChatFwdReqPDU.unpack, pyDecodeUtf8, List.take_length, h2]
    have hdec := decodeArrival_frame_ok .chatFwdReq (u.length :: u) (.chatFwdReq u)
      ChatFwdReqPDU.unpack rfl hup
    have hpack : PDU.pack (.chatFwdReq u) =
        some (SCP_VERSION_1_0 :: SCPMessageType.chatFwdReq.val ::
          (u.length :: u).length / 256 :: (u.length :: u).length % 256 :: u.length :: u) := by
      simp [PDU.pack, packWithHeader, hlt, hlt2]
    refine ⟨_, (u.length :: u).length, hpack, by (simp; omega), hdec⟩
  | chatFwdResp c u =>
    simp only [PDU.wireOk, Bool.and_eq_true, decide_eq_true_eq] at hp
    obtain ⟨h0, h1, h2⟩ := hp
    have hltc : c < 256 := by omega
    have hlt : u.length < 256 := by omega
    have hlt2 : u.length + 1 + 1 < 65536 := by omega
    have hup : ChatFwdRespPDU.unpack (c :: u.length :: u) = .ok (.chatFwdResp c u) := by
      simp [ChatFwdRespPDU.unpack, pyDecodeUtf8, List.take_length, h2]
    have hdec := decodeArrival_frame_ok .chatFwdResp (c :: u.length :: u) (.chatFwdResp c u)
      ChatFwdRespPDU.unpack rfl hup
    have hpack : PDU.pack (.chatFwdResp c u) =
        some (SCP_VERSION_1_0 :: SCPMessageType.chatFwdResp.val ::
          (c :: u.length :: u).length / 256 :: (c :: u.length :: u).length % 256 ::
          c :: u.length :: u) := by
      simp [PDU.pack, packWithHeader, hltc, hlt, hlt2]
    refine ⟨_, (c :: u.length :: u).length, hpack, by (simp; omega), hdec⟩
  | text m =>
    simp only [PDU.wireOk, Bool.and_eq_true, decide_eq_true_eq] at hp
    obtain ⟨h1, h2⟩ := hp
    have hlt : m.length < 65536 := by omega
    have hlt2 : m.length + 1 + 1 < 65536 := by omega
    have hdm : m.length / 256 * 256 + m.length % 256 = m.length := by omega
    have hup : TextPDU.unpack (m.length / 256 :: m.length % 256 :: m) = .ok (.text m) := by
      simp [TextPDU.unpack, hdm, pyDecodeUtf8, List.take_length, h2]
    have hdec := decodeArrival_frame_ok .text (m.length / 256 :: m.length % 256 :: m)
      (.text m) TextPDU.unpack rfl hup
    have hpack : PDU.pack (.text m) =
        some (SCP_VERSION_1_0 :: SCPMessageType.text.val ::
          (m.length / 256 :: m.length % 256 :: m).length / 256 ::
          (m.length / 256 :: m.length % 256 :: m).length % 256 ::
          m.length / 256 :: m.length % 256 :: m) := by
      simp [PDU.pack, packWithHeader, hlt, hlt2]
    refine ⟨_, (m.length / 256 :: m.length % 256 :: m).length, hpack, by (simp; omega), hdec⟩
  | disconnectReq =>
    have hup : DisconnectReqPDU.unpack [] = .ok .disconnectReq := rfl
    have hdec := decodeArrival_frame_ok .disconnectReq [] .disconnectReq
      DisconnectReqPDU.unpack rfl hup
    have hpack : PDU.pack .disconnectReq =
        some (SCP_VERSION_1_0 :: SCPMessageType.disconnectReq.val ::
          ([] : List Nat).length / 256 :: ([] : List Nat).length % 256 :: []) := by
      simp [PDU.pack, packWithHeader]
    refine ⟨_, ([] : List Nat).length, hpack, by simp, hdec⟩
  | disconnectNotif u =>
    simp only [PDU.wireOk, Bool.and_eq_true, decide_eq_true_eq] at hp
    obtain ⟨h1, h2⟩ := hp
    have hlt : u.length < 256 := by omega
    have hlt2 : u.length + 1 < 65536 := by omega
    have hup : DisconnectNotifPDU.unpack (u.length :: u) = .ok (.disconnectNotif u) := by
      simp [DisconnectNotifPDU.unpack, pyDecodeUtf8, List.take_length, h2]
    have hdec := decodeArrival_frame_ok .disconnectNotif (u.length :: u) (.disconnectNotif u)
      DisconnectNotifPDU.unpack rfl hup
    have hpack : PDU.pack (.disconnectNotif u) =
        some (SCP_VERSION_1_0 :: SCPMessageType.disconnectNotif.val ::
          (u.length :: u).length / 256 :: (u.length :: u).length % 256 :: u.length :: u) := by
      simp [PDU.pack, packWithHeader, hlt, hlt2]
    refine ⟨_, (u.length :: u).length, hpack, by (simp; omega), hdec⟩
  | error c m =>
    simp only [PDU.wireOk, Bool.and_eq_true, decide_eq_true_eq] at hp
    obtain ⟨h0, h1, h2⟩ := hp
    have hltc : c < 65536 := by omega
    have hlt : m.length < 256 := by omega
    have hlt2 : m.length + 1 + 1 + 1 < 65536 := by omega
    have hdm : c / 256 * 256 + c % 256 = c := by omega
    have hup : ErrorPDU.unpack (c / 256 :: c % 256 :: m.length :: m) = .ok (.error c m) := by
      simp [ErrorPDU.unpack, hdm, pyDecodeUtf8, List.take_length, h2]
    have hdec := decodeArrival_frame_ok .error (c / 256 :: c % 256 :: m.length :: m)
      (.error c m) ErrorPDU.unpack rfl hup
    have hpack : PDU.pack (.error c m) =
        some (SCP_VERSION_1_0 :: SCPMessageType.error.val ::
          (c / 256 :: c % 256 :: m.length :: m).length / 256 ::
          (c / 256 :: c % 256 :: m.length :: m).length % 256 ::
          c / 256 :: c % 256 :: m.length :: m) := by
      simp [PDU.pack, packWithHeader, hltc, hlt, hlt2]
    refine ⟨_, (c / 256 :: c % 256 :: m.length :: m).length, hpack, by (simp; omega), hdec⟩

/-- Witness for claim C3's amended round-trip at CONNECT_REQ("alice"). -/
theorem claim_C3_witness :
    ∃ bs plen, PDU.pack (.connectReq aliceName) = some bs ∧ bs.length = 4 + plen ∧
      decodeArrival bs = DecodeOutcome.ok .connectReq plen (.connectReq aliceName) :=
  claim_C3_roundtrip (.connectReq aliceName) (by decide)

end SCP
